import Mathlib

/-!
Verification development for the lightbulb tool server (`src/main.rs`).

The program keeps one boolean flag (`light_state`), a logging abstraction
(`Logger`, with a file-backed and an in-memory implementation), the two
state-transition handlers implemented by `change_lightbulb_state`, the report
generator `generate_usage_summary`, and the resource dispatcher
`read_resource`.

Text is embedded as `List Char` (named `Str` below): Rust string operations
(`split`, `lines`, `trim`, `contains`, `trim_start_matches`) are translated
into structurally recursive list functions with the same behaviour on the
character sequence.  All patterns searched for are ASCII, so character-level
substring search coincides with Rust's byte-level search.  The `f64`
percentage computation together with its `{:.1}` formatting is modelled as
exact rational arithmetic rounded to the nearest tenth with ties to even,
rendered as `<int>.<digit>`.
-/

/-- Character sequences; the embedding of Rust `String`/`&str` values. -/
abbrev Str := List Char

/-- Embed a Lean string literal as a character sequence. -/
def str (s : String) : Str := s.toList

/- Constants from the top of `main.rs`. -/

def LIGHTBULB_ON_STATUS : Str := str "The lightbulb is on"

def LIGHTBULB_OFF_STATUS : Str := str "The lightbulb is off"

def LIGHTBULB_ALREADY_ON : Str := str "The lightbulb is already on"

def LIGHTBULB_ALREADY_OFF : Str := str "The lightbulb is already off"

def LIGHTBULB_TURNED_ON : Str := str "Lightbulb turned on successfully"

def LIGHTBULB_TURNED_OFF : Str := str "Lightbulb turned off successfully"

def LOG_ACTION_ON : Str := str "ON"

def LOG_ACTION_OFF : Str := str "OFF"

/- String primitives (embeddings of the Rust std operations used). -/

/-- Rust `str::split(sep)` for a one-character pattern: always returns at
least one piece; pieces do not contain `sep`. -/
def splitOnChar (sep : Char) : Str → List Str
  | [] => [[]]
  | c :: cs =>
    let r := splitOnChar sep cs
    if c == sep then [] :: r
    else
      match r with
      | [] => [[c]]
      | h :: t => (c :: h) :: t

/-- Rust `str::contains(pat)`: substring test. -/
def rcontains (s pat : Str) : Bool := decide (pat <:+: s)

/-- One step of Rust `str::lines`: strip one trailing carriage return. -/
def stripCr (l : Str) : Str := if l.getLast? = some '\r' then l.dropLast else l

/-- Rust `str::lines`: split on newline, drop the optional final empty piece,
strip a trailing carriage return from each line. -/
def rustLines (s : Str) : List Str :=
  let parts := splitOnChar '\n' s
  let parts := if parts.getLast? = some [] then parts.dropLast else parts
  parts.map stripCr

/-- Rust `line.trim().is_empty()`: the line is entirely whitespace. -/
def isBlank (l : Str) : Bool := l.all (fun c => c.isWhitespace)

/-- Decimal rendering of a natural number as a character sequence. -/
def natStr (n : Nat) : Str := (toString n).toList

/- Logger abstraction (the `Logger` trait).  `log_event` takes the
timestamp produced by `Utc::now().to_rfc3339()` as an explicit argument;
failure carries the display string of the underlying I/O error. -/

structure LoggerOps (L : Type) where
  log_event : L → Str → Str → Except Str L
  read_log : L → Except Str Str

/-- The line written by `InMemoryLogger::log_event`
(`format!("[{}] Lightbulb turned {}", ts, action)`, no terminator). -/
def logLineMem (ts action : Str) : Str :=
  str "[" ++ ts ++ str "] Lightbulb turned " ++ action

/-- The line written by `FileLogger::log_event`
(`format!("[{}] Lightbulb turned {}\n", ts, action)`, with terminator). -/
def logLineFile (ts action : Str) : Str :=
  str "[" ++ ts ++ str "] Lightbulb turned " ++ action ++ str "\n"

/-- The file system as seen by `FileLogger`: the optional contents of
`lightbulb.log` (`none` = file absent, so `read_to_string` fails with
NotFound), plus an I/O-failure oracle for the append path (`some cause` means
opening/writing the file fails and the boxed error displays as `cause`). -/
structure FileSys where
  contents : Option Str
  write_error : Option Str

/-- `impl Logger for FileLogger`: append opens the file in create+append mode
and writes one formatted line; read returns the whole file. -/
def fileOps : LoggerOps FileSys where
  log_event fs ts action :=
    match fs.write_error with
    | some cause => .error cause
    | none => .ok ⟨some ((fs.contents.getD []) ++ logLineFile ts action), none⟩
  read_log fs :=
    match fs.contents with
    | none => .error (str "No such file or directory (os error 2)")
    | some c => .ok c

/-- `impl Logger for InMemoryLogger`: append pushes the formatted line onto
the entry sequence; read concatenates the entries, each with a newline. -/
def inMemoryOps : LoggerOps (List Str) where
  log_event entries ts action := .ok (entries ++ [logLineMem ts action])
  read_log entries := .ok ((entries.map (fun e => e ++ str "\n")).flatten)

/- The service (struct `LightService`; the `tool_router` field belongs to the
external protocol framework and carries no behaviour of its own). -/

structure LightService (L : Type) where
  light_state : Bool
  logger : L

/-- `LightService::get_lightbulb_status`. -/
def get_lightbulb_status {L : Type} (s : LightService L) : Str :=
  if s.light_state then LIGHTBULB_ON_STATUS else LIGHTBULB_OFF_STATUS

/-- `LightService::change_lightbulb_state`: check-and-set of the flag,
followed by the log write; the flag is assigned before the log write and is
not rolled back if the write fails. -/
def change_lightbulb_state {L : Type} (ops : LoggerOps L) (ts : Str)
    (target_state : Bool) (already_message success_message log_action : Str)
    (s : LightService L) : Except Str Str × LightService L :=
  if s.light_state == target_state then
    (.ok already_message, s)
  else
    let s2 : LightService L := { s with light_state := target_state }
    match ops.log_event s2.logger ts log_action with
    | .error e => (.error (str "Failed to log event: " ++ e), s2)
    | .ok lg => (.ok success_message, { s2 with logger := lg })

/-- `LightService::turn_on_lightbulb`. -/
def turn_on_lightbulb {L : Type} (ops : LoggerOps L) (ts : Str)
    (s : LightService L) : Except Str Str × LightService L :=
  change_lightbulb_state ops ts true LIGHTBULB_ALREADY_ON LIGHTBULB_TURNED_ON
    LOG_ACTION_ON s

/-- `LightService::turn_off_lightbulb`. -/
def turn_off_lightbulb {L : Type} (ops : LoggerOps L) (ts : Str)
    (s : LightService L) : Except Str Str × LightService L :=
  change_lightbulb_state ops ts false LIGHTBULB_ALREADY_OFF LIGHTBULB_TURNED_OFF
    LOG_ACTION_OFF s

/- Usage summary (`LightService::generate_usage_summary`). -/

/-- The non-blank lines of the log text
(`log_content.lines().filter(|line| !line.trim().is_empty())`). -/
def nonBlankLines (content : Str) : List Str :=
  (rustLines content).filter (fun l => !(isBlank l))

/-- `lines.iter().filter(|line| line.contains("turned ON")).count()`. -/
def onCount (lines : List Str) : Nat :=
  (lines.filter (fun l => rcontains l (str "turned ON"))).length

/-- `lines.iter().filter(|line| line.contains("turned OFF")).count()`. -/
def offCount (lines : List Str) : Nat :=
  (lines.filter (fun l => rcontains l (str "turned OFF"))).length

/-- `line.split(']').next().unwrap_or("").trim_start_matches('[')`: the piece
before the first `]` (the whole line when there is none — `split` always
yields a first piece), with all leading `[` characters removed. -/
def extractTs (l : Str) : Str :=
  ((splitOnChar ']' l).headD []).dropWhile (fun c => c == '[')

/-- `lines.first().map(extract).unwrap_or("N/A")`. -/
def firstActionOf (lines : List Str) : Str :=
  (lines.head?.map extractTs).getD (str "N/A")

/-- `lines.last().map(extract).unwrap_or("N/A")`. -/
def lastActionOf (lines : List Str) : Str :=
  (lines.getLast?.map extractTs).getD (str "N/A")

/-- `lines.iter().rev().take(5).rev().map(|line| format!("  {}", line))`:
the last five lines in original order, each indented by two spaces. -/
def recentActivity (lines : List Str) : List Str :=
  ((lines.reverse.take 5).reverse).map (fun l => str "  " ++ l)

/-- The tenths digit count behind the `{:.1}` rendering of
`(count as f64 / total as f64) * 100.0`: `1000 * count / total` rounded to
the nearest integer, ties to even (the rounding Rust's float formatter
applies); modelled as exact rational arithmetic. -/
def pctTenths (count total : Nat) : Nat :=
  if 2 * ((1000 * count) % total) < total then (1000 * count) / total
  else if total < 2 * ((1000 * count) % total) then (1000 * count) / total + 1
  else if ((1000 * count) / total) % 2 = 0 then (1000 * count) / total
  else (1000 * count) / total + 1

/-- The rendered percentage
(`if total_actions > 0 { count/total*100.0 } else { 0.0 }` under `{:.1}`). -/
def pctString (count total : Nat) : Str :=
  if 0 < total then
    natStr (pctTenths count total / 10) ++ str "." ++ natStr (pctTenths count total % 10)
  else str "0.0"

/-- The `format!` template of `generate_usage_summary` with all computed
fields substituted. -/
def renderSummary (current_status : Str) (total_actions on_actions off_actions : Nat)
    (onPct offPct first_action last_action recent : Str) : Str :=
  str "Lightbulb Usage Summary:\n\nCurrent Status: " ++ current_status
    ++ str "\nTotal Actions: " ++ natStr total_actions
    ++ str "\n- Turn ON actions: " ++ natStr on_actions ++ str " (" ++ onPct ++ str "%)"
    ++ str "\n- Turn OFF actions: " ++ natStr off_actions ++ str " (" ++ offPct ++ str "%)"
    ++ str "\n\nActivity Period:\n- First action: " ++ first_action
    ++ str "\n- Last action: " ++ last_action
    ++ str "\n\nRecent Activity (last 5 actions):\n" ++ recent

/-- The `Ok(log_content)` branch of `generate_usage_summary`. -/
def summarize (is_on : Bool) (log_content : Str) : Str :=
  let lines := nonBlankLines log_content
  if lines.isEmpty then str "Lightbulb Usage Summary:\n\nNo activity recorded yet."
  else
    renderSummary (if is_on then str "ON" else str "OFF")
      lines.length (onCount lines) (offCount lines)
      (pctString (onCount lines) lines.length)
      (pctString (offCount lines) lines.length)
      (firstActionOf lines) (lastActionOf lines)
      (List.intercalate (str "\n") (recentActivity lines))

/-- `LightService::generate_usage_summary`. -/
def generate_usage_summary {L : Type} (ops : LoggerOps L) (s : LightService L) : Str :=
  match ops.read_log s.logger with
  | .ok log_content => summarize s.light_state log_content
  | .error _ => str "Lightbulb Usage Summary:\n\nLog file not found. No activity recorded yet."

/- Resource reading (`ServerHandler::read_resource`). -/

/-- The protocol error payload (`rmcp::model::ErrorData`, the fields used). -/
structure ErrorData where
  code : Int
  message : Str
deriving DecidableEq

/-- One `text/plain` resource content item (`ResourceContents::text` builds a
text item with mime type `text/plain` for the given locator). -/
structure ResourceContents where
  text : Str
  uri : Str
  mimeType : Str
deriving DecidableEq

/-- `ResourceContents::text(content, uri)`. -/
def resourceText (content uri : Str) : ResourceContents :=
  ⟨content, uri, str "text/plain"⟩

/-- `ServerHandler::read_resource`: dispatch on the locator string. -/
def read_resource {L : Type} (ops : LoggerOps L) (s : LightService L)
    (uri : Str) : Except ErrorData (List ResourceContents) :=
  if uri = str "lightbulb://log" then
    let content :=
      match ops.read_log s.logger with
      | .ok log_content =>
        if isBlank log_content then str "No lightbulb activity recorded yet."
        else str "Lightbulb Activity Log:\n\n" ++ log_content
      | .error _ => str "Lightbulb log file not found. No activity recorded yet."
    .ok [resourceText content uri]
  else if uri = str "lightbulb://summary" then
    .ok [resourceText (generate_usage_summary ops s) uri]
  else
    .error ⟨-32602, str "Unknown resource URI"⟩

/- Traces of appends, for the round-trip property. -/

/-- Run a sequence of `(timestamp, action)` log appends through a logger,
stopping at the first failure. -/
def appendEvents {L : Type} (ops : LoggerOps L) : L → List (Str × Str) → Except Str L
  | l, [] => .ok l
  | l, p :: ps =>
    match ops.log_event l p.1 p.2 with
    | .ok l2 => appendEvents ops l2 ps
    | .error e => .error e

/-- The text a full read is expected to produce for a trace of appends:
each formatted line followed by its terminator, in append order. -/
def flatLog (evs : List (Str × Str)) : Str :=
  (evs.map (fun p => logLineFile p.1 p.2)).flatten

/-- The character alphabet of `chrono`'s RFC 3339 timestamps
(digits, date/time separators, fraction point, zone sign). -/
def allowedTsChars : Str := str "0123456789TZ:+-."

/-- The timestamp argument ranges over RFC 3339 renderings of `Utc::now()`. -/
def tsOk (ts : Str) : Bool := ts.all (fun c => decide (c ∈ allowedTsChars))

/- Helper lemmas. -/

theorem splitOnChar_of_not_mem (sep : Char) : ∀ l : Str, sep ∉ l → splitOnChar sep l = [l]
  | [], _ => rfl
  | c :: cs, h => by
    have hne : (c == sep) = false := by
      by_cases e : c = sep
      · subst e; exact absurd (List.mem_cons_self c cs) h
      · simp [e]
    have ih := splitOnChar_of_not_mem sep cs (fun hm => h (List.mem_cons_of_mem c hm))
    simp [splitOnChar, hne, ih]

theorem rcontains_suffix (pre pat : Str) : rcontains (pre ++ pat) pat = true :=
  decide_eq_true ((List.suffix_append pre pat).isInfix)

theorem rcontains_append_right (b c pat : Str) (h : rcontains c pat = true) :
    rcontains (b ++ c) pat = true := by
  obtain ⟨s, t, hst⟩ := of_decide_eq_true h
  exact decide_eq_true ⟨b ++ s, t, by rw [← hst]; simp⟩

theorem rcontains_eq_false_of_not_mem {l pat : Str} {ch : Char}
    (hc : ch ∈ pat) (hl : ch ∉ l) : rcontains l pat = false := by
  apply decide_eq_false
  intro hinf
  exact hl (hinf.subset hc)

theorem not_mem_line {c : Char} {ts rest : Str}
    (h1 : c ≠ '[') (h2 : c ∉ ts) (h3 : c ∉ rest) : c ∉ '[' :: (ts ++ rest) := by
  intro h
  rcases List.mem_cons.mp h with h | h
  · exact h1 h
  · rcases List.mem_append.mp h with h | h
    · exact h2 h
    · exact h3 h

theorem mem_ts_allowed {ts : Str} (hts : tsOk ts = true) {c : Char} (hc : c ∈ ts) :
    c ∈ allowedTsChars :=
  of_decide_eq_true (List.all_eq_true.mp hts c hc)

theorem logLineMem_cons (ts action : Str) :
    logLineMem ts action = '[' :: (ts ++ (str "] Lightbulb turned " ++ action)) := by
  show (('[' :: ts) ++ str "] Lightbulb turned ") ++ action
    = '[' :: (ts ++ (str "] Lightbulb turned " ++ action))
  simp [List.cons_append, List.append_assoc]

theorem logLineFile_cons (ts action : Str) :
    logLineFile ts action
      = '[' :: (ts ++ (str "] Lightbulb turned " ++ (action ++ str "\n"))) := by
  show ((('[' :: ts) ++ str "] Lightbulb turned ") ++ action) ++ str "\n"
    = '[' :: (ts ++ (str "] Lightbulb turned " ++ (action ++ str "\n")))
  simp [List.cons_append, List.append_assoc]

theorem logLineFile_eq_mem_line (ts action : Str) :
    logLineFile ts action = logLineMem ts action ++ str "\n" := by
  simp [logLineMem, logLineFile]

theorem rcontains_logLineMem_action (ts action : Str) :
    rcontains (logLineMem ts action) (str "turned " ++ action) = true := by
  apply decide_eq_true
  have e : str "] Lightbulb turned " = str "] Lightbulb " ++ str "turned " := rfl
  have h : logLineMem ts action
      = (str "[" ++ ts ++ str "] Lightbulb ") ++ (str "turned " ++ action) ++ [] := by
    simp [logLineMem, e, List.append_assoc]
  exact ⟨str "[" ++ ts ++ str "] Lightbulb ", [], h.symm⟩

theorem rcontains_logLineFile_action (ts action : Str) :
    rcontains (logLineFile ts action) (str "turned " ++ action) = true := by
  apply decide_eq_true
  have e : str "] Lightbulb turned " = str "] Lightbulb " ++ str "turned " := rfl
  have h : logLineFile ts action
      = (str "[" ++ ts ++ str "] Lightbulb ") ++ (str "turned " ++ action) ++ str "\n" := by
    simp [logLineFile, e, List.append_assoc]
  exact ⟨str "[" ++ ts ++ str "] Lightbulb ", str "\n", h.symm⟩

theorem length_filter_add_of_ne {α : Type} (p q : α → Bool) :
    ∀ l : List α, (∀ x ∈ l, p x ≠ q x) →
      (l.filter p).length + (l.filter q).length = l.length
  | [], _ => by simp
  | a :: t, h => by
    have ha := h a (List.mem_cons_self a t)
    have ih := length_filter_add_of_ne p q t (fun x hx => h x (List.mem_cons_of_mem a hx))
    cases hp : p a <;> cases hq : q a <;> rw [hp, hq] at ha
    · exact absurd rfl ha
    · simp [List.filter_cons, hp, hq]
      omega
    · simp [List.filter_cons, hp, hq]
      omega
    · exact absurd rfl ha

theorem pctTenths_nearest (k N : Nat) (hN : 0 < N) :
    2 * ((pctTenths k N : Int) * N - 1000 * k) ≤ N
    ∧ 2 * (1000 * k - (pctTenths k N : Int) * N) ≤ N := by
  have hdm : N * ((1000 * k) / N) + (1000 * k) % N = 1000 * k := Nat.div_add_mod _ _
  have hlt : (1000 * k) % N < N := Nat.mod_lt _ hN
  have hcast : (1000 : Int) * k
      = (N : Int) * (((1000 * k) / N : Nat) : Int) + (((1000 * k) % N : Nat) : Int) := by
    exact_mod_cast hdm.symm
  have hr0 : (0 : Int) ≤ (((1000 * k) % N : Nat) : Int) := Int.natCast_nonneg _
  have hN0 : (0 : Int) ≤ (N : Int) := Int.natCast_nonneg _
  unfold pctTenths
  split_ifs with h1 h2 h3
  · have h1i : 2 * (((1000 * k) % N : Nat) : Int) < N := by exact_mod_cast h1
    constructor <;> linarith [hcast]
  · have h2i : (N : Int) < 2 * (((1000 * k) % N : Nat) : Int) := by exact_mod_cast h2
    have hlti : (((1000 * k) % N : Nat) : Int) < N := by exact_mod_cast hlt
    constructor <;> simp only [Nat.cast_add, Nat.cast_one] <;> linarith [hcast]
  · have he : 2 * (((1000 * k) % N : Nat) : Int) = N := by
      have h' : 2 * ((1000 * k) % N) = N := by omega
      exact_mod_cast h'
    constructor <;> linarith [hcast]
  · have he : 2 * (((1000 * k) % N : Nat) : Int) = N := by
      have h' : 2 * ((1000 * k) % N) = N := by omega
      exact_mod_cast h'
    constructor <;> simp only [Nat.cast_add, Nat.cast_one] <;> linarith [hcast]

/- Claim theorems. -/

/-- C1: starting from a state whose flag differs from the target, a
transition whose log write fails returns the error string
`Failed to log event: <cause>` wrapping the underlying cause, and the
in-memory flag nevertheless remains set to the new target value — the flip
is not rolled back (shown for `turn_on_lightbulb` from the off state and
`turn_off_lightbulb` from the on state, over any file contents and cause). -/
theorem C1_flip_not_rolled_back (file : Option Str) (cause ts : Str) :
    turn_on_lightbulb fileOps ts ⟨false, ⟨file, some cause⟩⟩
      = (.error (str "Failed to log event: " ++ cause), ⟨true, ⟨file, some cause⟩⟩)
    ∧ turn_off_lightbulb fileOps ts ⟨true, ⟨file, some cause⟩⟩
      = (.error (str "Failed to log event: " ++ cause), ⟨false, ⟨file, some cause⟩⟩) :=
  ⟨rfl, rfl⟩

/-- C4: from the off state, the first `turn_on_lightbulb` returns the
"Lightbulb turned on successfully" literal and appends exactly one entry,
which contains "turned ON"; the second returns "The lightbulb is already on"
and appends nothing; symmetrically for `turn_off_lightbulb` from the on
state. -/
theorem C4_double_toggle (entries : List Str) (ts1 ts2 : Str) :
    (turn_on_lightbulb inMemoryOps ts1 ⟨false, entries⟩).1
        = .ok (str "Lightbulb turned on successfully")
    ∧ (turn_on_lightbulb inMemoryOps ts1 ⟨false, entries⟩).2.logger
        = entries ++ [logLineMem ts1 LOG_ACTION_ON]
    ∧ rcontains (logLineMem ts1 LOG_ACTION_ON) (str "turned ON") = true
    ∧ (turn_on_lightbulb inMemoryOps ts2
          (turn_on_lightbulb inMemoryOps ts1 ⟨false, entries⟩).2).1
        = .ok (str "The lightbulb is already on")
    ∧ (turn_on_lightbulb inMemoryOps ts2
          (turn_on_lightbulb inMemoryOps ts1 ⟨false, entries⟩).2).2.logger
        = (turn_on_lightbulb inMemoryOps ts1 ⟨false, entries⟩).2.logger
    ∧ (turn_off_lightbulb inMemoryOps ts1 ⟨true, entries⟩).1
        = .ok (str "Lightbulb turned off successfully")
    ∧ (turn_off_lightbulb inMemoryOps ts1 ⟨true, entries⟩).2.logger
        = entries ++ [logLineMem ts1 LOG_ACTION_OFF]
    ∧ rcontains (logLineMem ts1 LOG_ACTION_OFF) (str "turned OFF") = true
    ∧ (turn_off_lightbulb inMemoryOps ts2
          (turn_off_lightbulb inMemoryOps ts1 ⟨true, entries⟩).2).1
        = .ok (str "The lightbulb is already off")
    ∧ (turn_off_lightbulb inMemoryOps ts2
          (turn_off_lightbulb inMemoryOps ts1 ⟨true, entries⟩).2).2.logger
        = (turn_off_lightbulb inMemoryOps ts1 ⟨true, entries⟩).2.logger := by
  refine ⟨rfl, rfl, ?_, rfl, rfl, rfl, rfl, ?_, rfl, rfl⟩
  · have e : str "turned ON" = str "turned " ++ LOG_ACTION_ON := rfl
    rw [e]
    exact rcontains_logLineMem_action ts1 LOG_ACTION_ON
  · have e : str "turned OFF" = str "turned " ++ LOG_ACTION_OFF := rfl
    rw [e]
    exact rcontains_logLineMem_action ts1 LOG_ACTION_OFF

/-- C7: round-trip — running any trace of appends through either logger
succeeds, and a subsequent full read returns each appended line verbatim, in
append order, each followed by a single line terminator (the in-memory
backend adds the terminator at read time, the file backend at write time;
their per-line bytes agree). -/
theorem C7_roundtrip (evs : List (Str × Str)) (es0 : List Str) (c0 : Str) :
    appendEvents inMemoryOps es0 evs
      = .ok (es0 ++ evs.map (fun p => logLineMem p.1 p.2))
    ∧ inMemoryOps.read_log (es0 ++ evs.map (fun p => logLineMem p.1 p.2))
      = .ok ((es0.map (fun e => e ++ str "\n")).flatten ++ flatLog evs)
    ∧ appendEvents fileOps ⟨some c0, none⟩ evs = .ok ⟨some (c0 ++ flatLog evs), none⟩
    ∧ fileOps.read_log ⟨some (c0 ++ flatLog evs), none⟩ = .ok (c0 ++ flatLog evs)
    ∧ (∀ ts action, logLineFile ts action = logLineMem ts action ++ str "\n") := by
  refine ⟨?_, ?_, ?_, rfl, logLineFile_eq_mem_line⟩
  · induction evs generalizing es0 with
    | nil => simp [appendEvents]
    | cons p ps ih =>
      have hstep : appendEvents inMemoryOps es0 (p :: ps)
          = appendEvents inMemoryOps (es0 ++ [logLineMem p.1 p.2]) ps := rfl
      rw [hstep, ih]
      simp [List.append_assoc]
  · show Except.ok (((es0 ++ evs.map (fun p => logLineMem p.1 p.2)).map
        (fun e => e ++ str "\n")).flatten) = _
    rw [List.map_append, List.flatten_append]
    congr 2
    rw [List.map_map, flatLog]
    congr 1
  · induction evs generalizing c0 with
    | nil =>
      show Except.ok (⟨some c0, none⟩ : FileSys) = _
      simp [flatLog]
    | cons p ps ih =>
      have hstep : appendEvents fileOps ⟨some c0, none⟩ (p :: ps)
          = appendEvents fileOps ⟨some (c0 ++ logLineFile p.1 p.2), none⟩ ps := rfl
      rw [hstep, ih]
      simp [flatLog, List.append_assoc]

/-- C8: the "Recent Activity" section of the usage summary lists exactly
`min 5 total` lines, equal to the true tail of the non-blank log lines in
their original oldest-to-newest order, each prefixed with two spaces. -/
theorem C8_recent_tail (content : Str) :
    recentActivity (nonBlankLines content)
      = ((nonBlankLines content).drop ((nonBlankLines content).length - 5)).map
          (fun l => str "  " ++ l)
    ∧ (recentActivity (nonBlankLines content)).length
      = min 5 (nonBlankLines content).length := by
  constructor
  · simp [recentActivity, List.take_reverse]
  · simp [recentActivity]

/-- C9: a resource-read request for any locator other than
`lightbulb://log` and `lightbulb://summary` returns the protocol error with
code `-32602` and message `Unknown resource URI`, never a success result. -/
theorem C9_unknown_uri {L : Type} (ops : LoggerOps L) (s : LightService L) (uri : Str)
    (h1 : uri ≠ str "lightbulb://log") (h2 : uri ≠ str "lightbulb://summary") :
    read_resource ops s uri = .error ⟨-32602, str "Unknown resource URI"⟩ := by
  simp [read_resource, h1, h2]

/-- C9 witness: the unknown locator `foo` yields exactly the fixed error. -/
theorem C9_witness :
    read_resource inMemoryOps ⟨false, []⟩ (str "foo")
      = .error ⟨-32602, str "Unknown resource URI"⟩ :=
  C9_unknown_uri inMemoryOps ⟨false, []⟩ (str "foo") (by decide) (by decide)

/-- C5: with the log absent the summary is the fixed "Log file not found"
literal; with the log present but holding zero non-blank lines it is the
fixed "No activity recorded yet" literal; the two literals are distinct, and
in both situations the generator returns normally. -/
theorem C5_no_activity (is_on : Bool) (we : Option Str) (content : Str) :
    generate_usage_summary fileOps ⟨is_on, ⟨none, we⟩⟩
      = str "Lightbulb Usage Summary:\n\nLog file not found. No activity recorded yet."
    ∧ (nonBlankLines content = [] →
        summarize is_on content
            = str "Lightbulb Usage Summary:\n\nNo activity recorded yet."
        ∧ generate_usage_summary fileOps ⟨is_on, ⟨some content, we⟩⟩
            = str "Lightbulb Usage Summary:\n\nNo activity recorded yet.")
    ∧ str "Lightbulb Usage Summary:\n\nLog file not found. No activity recorded yet."
        ≠ str "Lightbulb Usage Summary:\n\nNo activity recorded yet." := by
  refine ⟨rfl, fun h => ?_, by decide⟩
  have hs : summarize is_on content
      = str "Lightbulb Usage Summary:\n\nNo activity recorded yet." := by
    simp [summarize, h]
  exact ⟨hs, hs⟩

/-- C5 witness: a present log consisting only of blank lines. -/
theorem C5_witness :
    nonBlankLines (str "\n \n") = []
    ∧ summarize false (str "\n \n")
        = str "Lightbulb Usage Summary:\n\nNo activity recorded yet." :=
  ⟨by decide, ((C5_no_activity false none (str "\n \n")).2.1 (by decide)).1⟩

/-- C3 counterexample: with log contents `x\n`, reading `lightbulb://log`
returns the log text prefixed by the header `Lightbulb Activity Log:` and a
blank line — not text equal to the raw log text, contradicting the claim. -/
theorem C3_counterexample :
    read_resource fileOps ⟨false, ⟨some (str "x\n"), none⟩⟩ (str "lightbulb://log")
      = .ok [resourceText (str "Lightbulb Activity Log:\n\nx\n") (str "lightbulb://log")]
    ∧ str "Lightbulb Activity Log:\n\nx\n" ≠ str "x\n" :=
  ⟨rfl, by decide⟩

/-- C3 amended: reading `lightbulb://log` always succeeds with `text/plain`
content; when the log is present and not blank the content is the raw log
text prefixed by the header `"Lightbulb Activity Log:\n\n"`; when the log is
absent or blank it is the corresponding "no activity / not found"
placeholder. -/
theorem C3_log_resource_amended (is_on : Bool) (we : Option Str) (c : Str) :
    read_resource fileOps ⟨is_on, ⟨none, we⟩⟩ (str "lightbulb://log")
      = .ok [resourceText (str "Lightbulb log file not found. No activity recorded yet.")
              (str "lightbulb://log")]
    ∧ (isBlank c = true →
        read_resource fileOps ⟨is_on, ⟨some c, we⟩⟩ (str "lightbulb://log")
          = .ok [resourceText (str "No lightbulb activity recorded yet.")
                  (str "lightbulb://log")])
    ∧ (isBlank c = false →
        read_resource fileOps ⟨is_on, ⟨some c, we⟩⟩ (str "lightbulb://log")
          = .ok [resourceText (str "Lightbulb Activity Log:\n\n" ++ c)
                  (str "lightbulb://log")])
    ∧ (resourceText (str "Lightbulb Activity Log:\n\n" ++ c) (str "lightbulb://log")).mimeType
      = str "text/plain" := by
  refine ⟨rfl, fun h => ?_, fun h => ?_, rfl⟩
  · simp [read_resource, fileOps, h]
  · simp [read_resource, fileOps, h]

/-- C3 witness: a present, non-blank log. -/
theorem C3_witness :
    isBlank (str "x\n") = false
    ∧ read_resource fileOps ⟨false, ⟨some (str "x\n"), none⟩⟩ (str "lightbulb://log")
        = .ok [resourceText (str "Lightbulb Activity Log:\n\n" ++ str "x\n")
                (str "lightbulb://log")] :=
  ⟨by decide, (C3_log_resource_amended false none (str "x\n")).2.2.1 (by decide)⟩

/-- C2 counterexample: for the log `abc\n` the first (and last) non-blank
line contains no `]`, yet the timestamp rendered in the Activity Period
section is `abc`, not the empty string: `split(']').next()` yields the whole
line, never `None`. -/
theorem C2_counterexample :
    rcontains (str "abc") (str "]") = false
    ∧ (nonBlankLines (str "abc\n")).headD [] = str "abc"
    ∧ firstActionOf (nonBlankLines (str "abc\n")) = str "abc"
    ∧ lastActionOf (nonBlankLines (str "abc\n")) = str "abc"
    ∧ str "abc" ≠ str ""
    ∧ summarize false (str "abc\n")
      = str "Lightbulb Usage Summary:\n\nCurrent Status: OFF\nTotal Actions: 1\n- Turn ON actions: 0 (0.0%)\n- Turn OFF actions: 0 (0.0%)\n\nActivity Period:\n- First action: abc\n- Last action: abc\n\nRecent Activity (last 5 actions):\n  abc" := by
  refine ⟨by decide, by decide, by decide, by decide, by decide, ?_⟩
  rfl

/-- C2 amended: for a first (resp. last) non-blank line containing no `]`
character, the timestamp rendered in the Activity Period section is the
entire line with all leading `[` characters removed (so no error, but the
empty string only when the line consists solely of `[` characters); the
rendered first/last timestamps are the extraction applied to the first/last
non-blank line. -/
theorem C2_malformed_ts_amended (content : Str) :
    (∀ l ∈ nonBlankLines content, ']' ∉ l →
        extractTs l = l.dropWhile (fun c => c == '['))
    ∧ (∀ a t, nonBlankLines content = a :: t →
        firstActionOf (nonBlankLines content) = extractTs a)
    ∧ (∀ z, (nonBlankLines content).getLast? = some z →
        lastActionOf (nonBlankLines content) = extractTs z) := by
  refine ⟨fun l _ hno => ?_, fun a t h => ?_, fun z h => ?_⟩
  · simp [extractTs, splitOnChar_of_not_mem ']' l hno]
  · simp [firstActionOf, h]
  · simp [lastActionOf, h]

/-- C2 witness: the malformed line `abc` of the log `abc\n`. -/
theorem C2_witness :
    (str "abc" ∈ nonBlankLines (str "abc\n") ∧ ']' ∉ str "abc"
      ∧ extractTs (str "abc") = (str "abc").dropWhile (fun c => c == '['))
    ∧ (nonBlankLines (str "abc\n") = [str "abc"]
      ∧ firstActionOf (nonBlankLines (str "abc\n")) = extractTs (str "abc")) :=
  ⟨⟨by decide, by decide,
      (C2_malformed_ts_amended (str "abc\n")).1 (str "abc") (by decide) (by decide)⟩,
    ⟨by decide,
      (C2_malformed_ts_amended (str "abc\n")).2.1 (str "abc") [] (by decide)⟩⟩

/-- C6: over non-blank log lines each containing exactly one of the two
marker substrings, the summary reports Total Actions = N, ON count = k with
percentage `k/N*100` rounded to one decimal, OFF count = N - k with
percentage `(N-k)/N*100` rounded to one decimal, and `0.0` when the total is
0 (the rendered tenths value t satisfies `|t/10 - 100*count/total| <= 1/20`,
stated below as the two-sided inequality on `pctTenths`). -/
theorem C6_summary_counts (is_on : Bool) (content : Str)
    (hx : ∀ l ∈ nonBlankLines content,
        rcontains l (str "turned ON") ≠ rcontains l (str "turned OFF"))
    (hne : nonBlankLines content ≠ []) :
    offCount (nonBlankLines content)
        = (nonBlankLines content).length - onCount (nonBlankLines content)
    ∧ onCount (nonBlankLines content) ≤ (nonBlankLines content).length
    ∧ (∃ firstA lastA recent,
        summarize is_on content
          = renderSummary (if is_on then str "ON" else str "OFF")
              (nonBlankLines content).length
              (onCount (nonBlankLines content))
              ((nonBlankLines content).length - onCount (nonBlankLines content))
              (pctString (onCount (nonBlankLines content)) (nonBlankLines content).length)
              (pctString ((nonBlankLines content).length - onCount (nonBlankLines content))
                (nonBlankLines content).length)
              firstA lastA recent)
    ∧ (∀ k N : Nat, 0 < N →
        2 * ((pctTenths k N : Int) * N - 1000 * k) ≤ N
        ∧ 2 * (1000 * k - (pctTenths k N : Int) * N) ≤ N)
    ∧ (∀ k : Nat, pctString k 0 = str "0.0") := by
  have hsum := length_filter_add_of_ne
    (fun l => rcontains l (str "turned ON"))
    (fun l => rcontains l (str "turned OFF"))
    (nonBlankLines content) hx
  have hoff : offCount (nonBlankLines content)
      = (nonBlankLines content).length - onCount (nonBlankLines content) := by
    simp only [onCount, offCount] at *
    omega
  have hon : onCount (nonBlankLines content) ≤ (nonBlankLines content).length :=
    List.length_filter_le _ _
  refine ⟨hoff, hon, ?_, fun k N hN => pctTenths_nearest k N hN, fun k => rfl⟩
  have hE : (nonBlankLines content).isEmpty = false := by
    simp [List.isEmpty_iff, hne]
  refine ⟨firstActionOf (nonBlankLines content), lastActionOf (nonBlankLines content),
    List.intercalate (str "\n") (recentActivity (nonBlankLines content)), ?_⟩
  rw [← hoff]
  simp [summarize, hE]

/-- C6 witness: a two-line log with one ON and one OFF entry. -/
theorem C6_witness :
    (∀ l ∈ nonBlankLines (str "[1] Lightbulb turned ON\n[2] Lightbulb turned OFF\n"),
        rcontains l (str "turned ON") ≠ rcontains l (str "turned OFF"))
    ∧ nonBlankLines (str "[1] Lightbulb turned ON\n[2] Lightbulb turned OFF\n") ≠ []
    ∧ offCount (nonBlankLines (str "[1] Lightbulb turned ON\n[2] Lightbulb turned OFF\n"))
        = (nonBlankLines (str "[1] Lightbulb turned ON\n[2] Lightbulb turned OFF\n")).length
          - onCount (nonBlankLines (str "[1] Lightbulb turned ON\n[2] Lightbulb turned OFF\n")) :=
  ⟨by decide, by decide, (C6_summary_counts false _ (by decide) (by decide)).1⟩

/-- A line produced by the in-memory formatter with an RFC 3339 timestamp
contains exactly one of the substrings `turned ON` / `turned OFF`. -/
theorem exactlyOne_logLineMem (ts action : Str) (hts : tsOk ts = true)
    (ha : action = LOG_ACTION_ON ∨ action = LOG_ACTION_OFF) :
    rcontains (logLineMem ts action) (str "turned ON")
      ≠ rcontains (logLineMem ts action) (str "turned OFF") := by
  rcases ha with rfl | rfl
  · have h1 : rcontains (logLineMem ts LOG_ACTION_ON) (str "turned ON") = true := by
      have e : str "turned ON" = str "turned " ++ LOG_ACTION_ON := rfl
      rw [e]
      exact rcontains_logLineMem_action ts LOG_ACTION_ON
    have h2 : rcontains (logLineMem ts LOG_ACTION_ON) (str "turned OFF") = false := by
      refine @rcontains_eq_false_of_not_mem _ (str "turned OFF") 'F' (by decide) ?_
      rw [logLineMem_cons]
      refine not_mem_line (by decide) ?_ (by decide)
      intro hF
      exact absurd (mem_ts_allowed hts hF) (by decide)
    rw [h1, h2]
    simp
  · have h1 : rcontains (logLineMem ts LOG_ACTION_OFF) (str "turned OFF") = true := by
      have e : str "turned OFF" = str "turned " ++ LOG_ACTION_OFF := rfl
      rw [e]
      exact rcontains_logLineMem_action ts LOG_ACTION_OFF
    have h2 : rcontains (logLineMem ts LOG_ACTION_OFF) (str "turned ON") = false := by
      refine @rcontains_eq_false_of_not_mem _ (str "turned ON") 'N' (by decide) ?_
      rw [logLineMem_cons]
      refine not_mem_line (by decide) ?_ (by decide)
      intro hN
      exact absurd (mem_ts_allowed hts hN) (by decide)
    rw [h1, h2]
    simp

/-- The file formatter's line satisfies the same exactly-one property. -/
theorem exactlyOne_logLineFile (ts action : Str) (hts : tsOk ts = true)
    (ha : action = LOG_ACTION_ON ∨ action = LOG_ACTION_OFF) :
    rcontains (logLineFile ts action) (str "turned ON")
      ≠ rcontains (logLineFile ts action) (str "turned OFF") := by
  rcases ha with rfl | rfl
  · have h1 : rcontains (logLineFile ts LOG_ACTION_ON) (str "turned ON") = true := by
      have e : str "turned ON" = str "turned " ++ LOG_ACTION_ON := rfl
      rw [e]
      exact rcontains_logLineFile_action ts LOG_ACTION_ON
    have h2 : rcontains (logLineFile ts LOG_ACTION_ON) (str "turned OFF") = false := by
      refine @rcontains_eq_false_of_not_mem _ (str "turned OFF") 'F' (by decide) ?_
      rw [logLineFile_cons]
      refine not_mem_line (by decide) ?_ (by decide)
      intro hF
      exact absurd (mem_ts_allowed hts hF) (by decide)
    rw [h1, h2]
    simp
  · have h1 : rcontains (logLineFile ts LOG_ACTION_OFF) (str "turned OFF") = true := by
      have e : str "turned OFF" = str "turned " ++ LOG_ACTION_OFF := rfl
      rw [e]
      exact rcontains_logLineFile_action ts LOG_ACTION_OFF
    have h2 : rcontains (logLineFile ts LOG_ACTION_OFF) (str "turned ON") = false := by
      refine @rcontains_eq_false_of_not_mem _ (str "turned ON") 'N' (by decide) ?_
      rw [logLineFile_cons]
      refine not_mem_line (by decide) ?_ (by decide)
      intro hN
      exact absurd (mem_ts_allowed hts hN) (by decide)
    rw [h1, h2]
    simp

theorem onCount_cons (x : Str) (xs : List Str) :
    onCount (x :: xs)
      = (if rcontains x (str "turned ON") = true then 1 else 0) + onCount xs := by
  by_cases h : rcontains x (str "turned ON") = true
  · simp [onCount, List.filter_cons, h, Nat.add_comm]
  · simp [onCount, List.filter_cons, h]

theorem offCount_cons (x : Str) (xs : List Str) :
    offCount (x :: xs)
      = (if rcontains x (str "turned OFF") = true then 1 else 0) + offCount xs := by
  by_cases h : rcontains x (str "turned OFF") = true
  · simp [offCount, List.filter_cons, h, Nat.add_comm]
  · simp [offCount, List.filter_cons, h]

/-- C10: a log line produced by `log_event` (either backend) with an
RFC 3339 timestamp contains exactly one of the substrings `turned ON` /
`turned OFF` and never both; consequently, for a log produced solely by the
two transition operations, each line is counted by exactly one of the
summary's two substring filters, so ON count + OFF count = Total Actions. -/
theorem C10_line_invariant (ts action : Str) (hts : tsOk ts = true)
    (ha : action = LOG_ACTION_ON ∨ action = LOG_ACTION_OFF) :
    (rcontains (logLineMem ts action) (str "turned ON")
        ≠ rcontains (logLineMem ts action) (str "turned OFF"))
    ∧ (rcontains (logLineFile ts action) (str "turned ON")
        ≠ rcontains (logLineFile ts action) (str "turned OFF"))
    ∧ (∀ evs : List (Str × Str),
        (∀ p ∈ evs, tsOk p.1 = true ∧ (p.2 = LOG_ACTION_ON ∨ p.2 = LOG_ACTION_OFF)) →
        onCount (evs.map (fun p => logLineMem p.1 p.2))
          + offCount (evs.map (fun p => logLineMem p.1 p.2)) = evs.length) := by
  refine ⟨exactlyOne_logLineMem ts action hts ha,
    exactlyOne_logLineFile ts action hts ha, ?_⟩
  intro evs
  induction evs with
  | nil => intro _; rfl
  | cons p ps ih =>
    intro h
    have hp := h p (List.mem_cons_self p ps)
    have ihe := ih (fun x hx => h x (List.mem_cons_of_mem p hx))
    have hone := exactlyOne_logLineMem p.1 p.2 hp.1 hp.2
    rw [List.map_cons, onCount_cons, offCount_cons]
    cases hon : rcontains (logLineMem p.1 p.2) (str "turned ON") <;>
      cases hoff : rcontains (logLineMem p.1 p.2) (str "turned OFF")
    · rw [hon, hoff] at hone
      exact absurd rfl hone
    · simp [hon, hoff]
      omega
    · simp [hon, hoff]
      omega
    · rw [hon, hoff] at hone
      exact absurd rfl hone

/-- C10 witness: a concrete RFC 3339 timestamp with the ON action. -/
theorem C10_witness :
    tsOk (str "2025-01-01T00:00:00+00:00") = true
    ∧ rcontains (logLineMem (str "2025-01-01T00:00:00+00:00") LOG_ACTION_ON)
          (str "turned ON")
        ≠ rcontains (logLineMem (str "2025-01-01T00:00:00+00:00") LOG_ACTION_ON)
          (str "turned OFF") :=
  ⟨by decide,
    (C10_line_invariant (str "2025-01-01T00:00:00+00:00") LOG_ACTION_ON
      (by decide) (Or.inl rfl)).1⟩
